import Mathlib

/-!
# MS-CHAPv2 core of `src/modules/rlm_mschap/mschap.c`

A shallow embedding of the four routines of `mschap.c` and theorems about them.

Conventions of the embedding.

* A byte (`uint8_t`, `char`) is a `Nat`; a buffer is a `List Nat`.  A routine that
  writes through a pointer takes the buffer and returns the updated buffer.
* `memcpy` and single stores keep the length of the destination buffer.
* The SHA-1 streaming interface (`fr_sha1_init`, `fr_sha1_update`, `fr_sha1_final`),
  the MD4 one-shot digest and the UTF-8 to UCS-2 encoder live outside `mschap.c`.
  The routines take them as arguments; concrete models are given as well, so that
  every statement can be evaluated on concrete data.
* `FR_PROTO_TRACE` and `FR_PROTO_HEX_DUMP` are debug output and are left out.
-/

set_option autoImplicit false

namespace Mschap

/-! ## Memory helpers -/

/-- C `memcpy(dst, src, n)`: the first `n` bytes of `src` overwrite the first `n`
bytes of `dst`; the rest of `dst` is kept. -/
def memcpy : List Nat → List Nat → Nat → List Nat
  | _ :: ds, s :: ss, n + 1 => s :: memcpy ds ss n
  | ds, _, _ => ds

/-- C `strlen`: the number of bytes before the first NUL. -/
def strlen : List Nat → Nat
  | [] => 0
  | c :: cs => if c = 0 then 0 else strlen cs + 1

/-! ## 32-bit word helpers used by the digest models -/

/-- Left rotation of a 32-bit word. -/
def rotl32 (x n : Nat) : Nat := ((x <<< n) ||| (x >>> (32 - n))) % 4294967296

/-- Big-endian grouping of bytes into 32-bit words. -/
def be32_words : List Nat → List Nat
  | b0 :: b1 :: b2 :: b3 :: rest =>
    (b0 * 16777216 + b1 * 65536 + b2 * 256 + b3) :: be32_words rest
  | _ => []

/-- Little-endian grouping of bytes into 32-bit words. -/
def le32_words : List Nat → List Nat
  | b0 :: b1 :: b2 :: b3 :: rest =>
    (b0 + b1 * 256 + b2 * 65536 + b3 * 16777216) :: le32_words rest
  | _ => []

/-- The `n` low bytes of `x`, most significant first. -/
def be_bytes (n : Nat) (x : Nat) : List Nat :=
  (List.range n).reverse.map fun i => (x >>> (8 * i)) % 256

/-- The `n` low bytes of `x`, least significant first. -/
def le_bytes (n : Nat) (x : Nat) : List Nat :=
  (List.range n).map fun i => (x >>> (8 * i)) % 256

/-! ## SHA-1 (FIPS 180-1) -/

/-- Message schedule of SHA-1: the window holds the words produced so far, newest
first; each step adds `W[t] = rotl1 (W[t-3] ^ W[t-8] ^ W[t-14] ^ W[t-16])`. -/
def sha1_expand : Nat → List Nat → List Nat
  | 0, w => w
  | n + 1, w =>
    sha1_expand n
      (rotl32 (w.getD 2 0 ^^^ w.getD 7 0 ^^^ w.getD 13 0 ^^^ w.getD 15 0) 1 :: w)

/-- Round function of SHA-1. -/
def sha1_f (t b c d : Nat) : Nat :=
  if t < 20 then (b &&& c) ||| ((b ^^^ 4294967295) &&& d)
  else if t < 40 then b ^^^ c ^^^ d
  else if t < 60 then (b &&& c) ||| (b &&& d) ||| (c &&& d)
  else b ^^^ c ^^^ d

/-- Round constant of SHA-1. -/
def sha1_k (t : Nat) : Nat :=
  if t < 20 then 0x5A827999 else if t < 40 then 0x6ED9EBA1
  else if t < 60 then 0x8F1BBCDC else 0xCA62C1D6

/-- The five chaining words of SHA-1. -/
structure Sha1State where
  a : Nat
  b : Nat
  c : Nat
  d : Nat
  e : Nat

/-- The 80 rounds of SHA-1 over the expanded schedule. -/
def sha1_rounds : List Nat → Nat → Sha1State → Sha1State
  | [], _, s => s
  | w :: ws, t, s =>
    sha1_rounds ws (t + 1)
      ⟨(rotl32 s.a 5 + sha1_f t s.b s.c s.d + s.e + sha1_k t + w) % 4294967296,
       s.a, rotl32 s.b 30, s.c, s.d⟩

/-- Compression of one 64-byte block. -/
def sha1_compress (h : Sha1State) (block : List Nat) : Sha1State :=
  let w := (sha1_expand 64 (be32_words block).reverse).reverse
  let r := sha1_rounds w 0 h
  ⟨(h.a + r.a) % 4294967296, (h.b + r.b) % 4294967296, (h.c + r.c) % 4294967296,
   (h.d + r.d) % 4294967296, (h.e + r.e) % 4294967296⟩

/-- Compression of the first `n` blocks of a padded message. -/
def sha1_blocks : Nat → List Nat → Sha1State → Sha1State
  | 0, _, h => h
  | n + 1, m, h => sha1_blocks n (m.drop 64) (sha1_compress h (m.take 64))

/-- Merkle-Damgard padding with a big-endian 64-bit bit count. -/
def sha1_pad (m : List Nat) : List Nat :=
  m ++ 128 :: List.replicate ((119 - m.length % 64) % 64) 0 ++ be_bytes 8 (8 * m.length)

/-- Modelled from the spec: the SHA-1 primitive of the hash library
(`freeradius-devel/util/sha1.h`) is not part of `mschap.c`; the spec treats it as a
trusted building block.  This is the one-shot SHA-1 digest of FIPS 180-1. -/
def sha1 (m : List Nat) : List Nat :=
  let p := sha1_pad m
  let h := sha1_blocks (p.length / 64) p
    ⟨0x67452301, 0xEFCDAB89, 0x98BADCFE, 0x10325476, 0xC3D2E1F0⟩
  be_bytes 4 h.a ++ be_bytes 4 h.b ++ be_bytes 4 h.c ++ be_bytes 4 h.d ++ be_bytes 4 h.e

/-- The streaming SHA-1 interface used by `mschap.c`: a context type with
`fr_sha1_init`, `fr_sha1_update` (given the bytes it reads) and `fr_sha1_final`
(returning the digest it writes). -/
structure Sha1Api where
  Ctx : Type
  fr_sha1_init : Ctx
  fr_sha1_update : Ctx → List Nat → Ctx
  fr_sha1_final : Ctx → List Nat

/-- The trust assumption on the SHA-1 primitive: init, any sequence of updates and
final yield the one-shot digest `SHA1` of the concatenated chunks, and a digest has
20 bytes. -/
structure Sha1Api.Lawful (sha : Sha1Api) (SHA1 : List Nat → List Nat) : Prop where
  stream : ∀ chunks : List (List Nat),
    sha.fr_sha1_final (chunks.foldl sha.fr_sha1_update sha.fr_sha1_init) = SHA1 chunks.flatten
  digest_length : ∀ m : List Nat, (SHA1 m).length = 20

/-- Modelled from the spec: a concrete SHA-1 context (absent from `mschap.c`) that
collects the bytes it is fed and digests them with `sha1` on `fr_sha1_final`. -/
def sha1Api : Sha1Api where
  Ctx := List Nat
  fr_sha1_init := []
  fr_sha1_update := fun ctx data => ctx ++ data
  fr_sha1_final := sha1

/-- A SHA-1 interface that meets the trust assumption `Sha1Api.Lawful` although all
its digests are equal (20 zero bytes).  It separates what the routines of `mschap.c`
guarantee from what rests on the collision resistance of SHA-1. -/
def sha_colliding : Sha1Api where
  Ctx := Unit
  fr_sha1_init := ()
  fr_sha1_update := fun _ _ => ()
  fr_sha1_final := fun _ => List.replicate 20 0

/-! ## MD4 (RFC 1320) -/

/-- One MD4 operation `a = (a + f(b,c,d) + x + k) <<< s`, followed by the register
rotation `(a, b, c, d) := (d, a, b, c)`. -/
def md4_op (f : Nat → Nat → Nat → Nat) (k : Nat) (x : List Nat)
    (st : Nat × Nat × Nat × Nat) (ks : Nat × Nat) : Nat × Nat × Nat × Nat :=
  (st.2.2.2,
   rotl32 ((st.1 + f st.2.1 st.2.2.1 st.2.2.2 + x.getD ks.1 0 + k) % 4294967296) ks.2,
   st.2.1, st.2.2.1)

/-- Selection function of MD4 round 1. -/
def md4_F (x y z : Nat) : Nat := (x &&& y) ||| ((x ^^^ 4294967295) &&& z)

/-- Majority function of MD4 round 2. -/
def md4_G (x y z : Nat) : Nat := (x &&& y) ||| (x &&& z) ||| (y &&& z)

/-- Parity function of MD4 round 3. -/
def md4_H (x y z : Nat) : Nat := x ^^^ y ^^^ z

/-- Word index and shift of the 16 operations of MD4 round 1. -/
def md4_r1 : List (Nat × Nat) :=
  [(0, 3), (1, 7), (2, 11), (3, 19), (4, 3), (5, 7), (6, 11), (7, 19),
   (8, 3), (9, 7), (10, 11), (11, 19), (12, 3), (13, 7), (14, 11), (15, 19)]

/-- Word index and shift of the 16 operations of MD4 round 2. -/
def md4_r2 : List (Nat × Nat) :=
  [(0, 3), (4, 5), (8, 9), (12, 13), (1, 3), (5, 5), (9, 9), (13, 13),
   (2, 3), (6, 5), (10, 9), (14, 13), (3, 3), (7, 5), (11, 9), (15, 13)]

/-- Word index and shift of the 16 operations of MD4 round 3. -/
def md4_r3 : List (Nat × Nat) :=
  [(0, 3), (8, 9), (4, 11), (12, 15), (2, 3), (10, 9), (6, 11), (14, 15),
   (1, 3), (9, 9), (5, 11), (13, 15), (3, 3), (11, 9), (7, 11), (15, 15)]

/-- Compression of one 64-byte block by MD4. -/
def md4_compress (h : Nat × Nat × Nat × Nat) (block : List Nat) : Nat × Nat × Nat × Nat :=
  let x := le32_words block
  let s1 := md4_r1.foldl (md4_op md4_F 0 x) h
  let s2 := md4_r2.foldl (md4_op md4_G 0x5A827999 x) s1
  let s3 := md4_r3.foldl (md4_op md4_H 0x6ED9EBA1 x) s2
  ((h.1 + s3.1) % 4294967296, (h.2.1 + s3.2.1) % 4294967296,
   (h.2.2.1 + s3.2.2.1) % 4294967296, (h.2.2.2 + s3.2.2.2) % 4294967296)

/-- Compression of the first `n` blocks of a padded message by MD4. -/
def md4_blocks : Nat → List Nat → Nat × Nat × Nat × Nat → Nat × Nat × Nat × Nat
  | 0, _, h => h
  | n + 1, m, h => md4_blocks n (m.drop 64) (md4_compress h (m.take 64))

/-- Merkle-Damgard padding with a little-endian 64-bit bit count. -/
def md4_pad (m : List Nat) : List Nat :=
  m ++ 128 :: List.replicate ((119 - m.length % 64) % 64) 0 ++ le_bytes 8 (8 * m.length)

/-- Modelled from the spec: the MD4 primitive of the hash library is not part of
`mschap.c`; the spec treats it as a trusted building block.  This is the one-shot
MD4 digest of RFC 1320. -/
def md4 (m : List Nat) : List Nat :=
  let p := md4_pad m
  let h := md4_blocks (p.length / 64) p (0x67452301, 0xEFCDAB89, 0x98BADCFE, 0x10325476)
  le_bytes 4 h.1 ++ le_bytes 4 h.2.1 ++ le_bytes 4 h.2.2.1 ++ le_bytes 4 h.2.2.2

/-- Modelled from the spec: `fr_md4_calc(out, in, inlen)` of the hash library is not
part of `mschap.c`.  It is the one-shot MD4 digest of the first `inlen` bytes of
`in`, written to the 16-byte buffer `out`; the digest function `MD4` is an argument. -/
def fr_md4_calc (MD4 : List Nat → List Nat) (out inp : List Nat) (inlen : Nat) : List Nat :=
  memcpy out (MD4 (inp.take inlen)) 16

/-! ## UTF-8 to UCS-2 encoder -/

/-- Whether a byte is a UTF-8 continuation byte `10xxxxxx`. -/
def utf8_cont (c : Nat) : Bool := c &&& 0xc0 == 0x80

/-- Decoder state machine over the input bytes: `k` continuation bytes are still
expected for the character whose bits collected so far are `acc`.  The result is
`none` when a lead byte is not of a one-, two- or three-byte sequence, when a
continuation byte is missing or malformed, or when the input ends inside a
character. -/
def utf8_units_from : Nat → Nat → List Nat → Option (List Nat)
  | 0, _, [] => some []
  | _ + 1, _, [] => none
  | 0, _, c :: rest =>
    if c < 0x80 then (utf8_units_from 0 0 rest).map (c :: ·)
    else if c &&& 0xe0 = 0xc0 then utf8_units_from 1 (c &&& 0x1f) rest
    else if c &&& 0xf0 = 0xe0 then utf8_units_from 2 (c &&& 0x0f) rest
    else none
  | k + 1, acc, c :: rest =>
    if utf8_cont c then
      if k = 0 then (utf8_units_from 0 0 rest).map (((acc <<< 6) ||| (c &&& 0x3f)) :: ·)
      else utf8_units_from k ((acc <<< 6) ||| (c &&& 0x3f)) rest
    else none

/-- The 16-bit code units of a UTF-8 byte string: one unit for each one-, two- or
three-byte sequence; `none` when the input is not such a sequence of characters. -/
def utf8_units (inp : List Nat) : Option (List Nat) := utf8_units_from 0 0 inp

/-- The two bytes of a 16-bit code unit, low byte first. -/
def le16 (u : Nat) : List Nat := [u % 256, u / 256 % 256]

/-- The UTF-16LE encoding of a UTF-8 byte string, with no bound on its length. -/
def utf16le (inp : List Nat) : Option (List Nat) :=
  (utf8_units inp).map fun us => us.flatMap le16

/-- Bounded output: the code units are stored little-endian from offset `off`; the
store of a unit that does not fit below `outlen` is refused with `-1`. -/
def put_units (outlen : Nat) : List Nat → Nat → List Nat → Int × List Nat
  | [], off, out => ((off : Int), out)
  | u :: us, off, out =>
    if outlen < off + 2 then (-1, out)
    else put_units outlen us (off + 2) ((out.set off (u % 256)).set (off + 1) (u / 256 % 256))

/-- Modelled from the spec: `fr_utf8_to_ucs2(out, outlen, in, inlen)` of the utility
library is not part of `mschap.c`.  The spec describes it as a UTF-16LE text encoder
with bounded output that fails with a length or validity error: it returns the
number of bytes written, or `-1` when the input is invalid or the encoding does not
fit in `outlen` bytes. -/
def fr_utf8_to_ucs2 (out : List Nat) (outlen : Nat) (inp : List Nat) (inlen : Nat) :
    Int × List Nat :=
  match utf8_units (inp.take inlen) with
  | none => (-1, out)
  | some us => put_units outlen us 0 out

/-! ## The routines of `mschap.c` -/

/-- Type of the encoder argument: `(out, outlen, in, inlen)` to the returned
`ssize_t` and the buffer `out` after the call. -/
abbrev Ucs2Encoder := List Nat → Nat → List Nat → Nat → Int × List Nat

/-- `mschap_nt_password_hash(out, password)`: returns the status and the buffer
`out` after the call.  The encoder `encode` stands for `fr_utf8_to_ucs2` and `MD4`
for the digest behind `fr_md4_calc`.  The 512-byte stack buffer `ucs2_password`
starts zeroed. -/
def mschap_nt_password_hash (encode : Ucs2Encoder) (MD4 : List Nat → List Nat)
    (out : List Nat) (password : List Nat) : Int × List Nat :=
  let ucs2_password := List.replicate 512 0
  let r := encode ucs2_password 512 password (strlen password)
  let len := r.1
  let ucs2_password := r.2
  if len < 0 then
    (-1, out.set 0 0)
  else
    (0, fr_md4_calc MD4 out ucs2_password len.toNat)

/-- `mschap_challenge_hash(challenge, peer_challenge, auth_challenge, user_name,
user_name_len)`: returns the buffer `challenge` after the call. -/
def mschap_challenge_hash (sha : Sha1Api) (challenge peer_challenge auth_challenge : List Nat)
    (user_name : List Nat) (user_name_len : Nat) : List Nat :=
  let ctx := sha.fr_sha1_init
  let ctx := sha.fr_sha1_update ctx (peer_challenge.take 16)
  let ctx := sha.fr_sha1_update ctx (auth_challenge.take 16)
  let ctx := sha.fr_sha1_update ctx (user_name.take user_name_len)
  let hash := sha.fr_sha1_final ctx
  memcpy challenge hash 8

/-- The constant `magic1[39]` of `mschap_auth_response`. -/
def magic1 : List Nat :=
  [0x4D, 0x61, 0x67, 0x69, 0x63, 0x20, 0x73, 0x65, 0x72, 0x76,
   0x65, 0x72, 0x20, 0x74, 0x6F, 0x20, 0x63, 0x6C, 0x69, 0x65,
   0x6E, 0x74, 0x20, 0x73, 0x69, 0x67, 0x6E, 0x69, 0x6E, 0x67,
   0x20, 0x63, 0x6F, 0x6E, 0x73, 0x74, 0x61, 0x6E, 0x74]

/-- The constant `magic2[41]` of `mschap_auth_response`. -/
def magic2 : List Nat :=
  [0x50, 0x61, 0x64, 0x20, 0x74, 0x6F, 0x20, 0x6D, 0x61, 0x6B,
   0x65, 0x20, 0x69, 0x74, 0x20, 0x64, 0x6F, 0x20, 0x6D, 0x6F,
   0x72, 0x65, 0x20, 0x74, 0x68, 0x61, 0x6E, 0x20, 0x6F, 0x6E,
   0x65, 0x20, 0x69, 0x74, 0x65, 0x72, 0x61, 0x74, 0x69, 0x6F,
   0x6E]

/-- The table `hex[] = "0123456789ABCDEF"` of `mschap_auth_response`, with the
terminating NUL of the string literal. -/
def hex : List Nat :=
  [48, 49, 50, 51, 52, 53, 54, 55, 56, 57, 65, 66, 67, 68, 69, 70, 0]

/-- The loop `for (i = 0; i < sizeof(digest); i++)` of `mschap_auth_response`, with
`n` iterations left at index `i`. -/
def hex_loop (digest : List Nat) : Nat → Nat → List Nat → List Nat
  | 0, _, response => response
  | n + 1, i, response =>
    let response := response.set (2 + i * 2) (hex.getD ((digest.getD i 0 >>> 4) &&& 0x0f) 0)
    let response := response.set (3 + i * 2) (hex.getD (digest.getD i 0 &&& 0x0f) 0)
    hex_loop digest n (i + 1) response

/-- `mschap_auth_response(username, username_len, nt_hash_hash, ntresponse,
peer_challenge, auth_challenge, response)`: returns the buffer `response` after the
call.  The 8-byte stack buffer `challenge` starts zeroed. -/
def mschap_auth_response (sha : Sha1Api) (username : List Nat) (username_len : Nat)
    (nt_hash_hash ntresponse peer_challenge auth_challenge : List Nat)
    (response : List Nat) : List Nat :=
  let challenge := List.replicate 8 0
  let ctx := sha.fr_sha1_init
  let ctx := sha.fr_sha1_update ctx (nt_hash_hash.take 16)
  let ctx := sha.fr_sha1_update ctx (ntresponse.take 24)
  let ctx := sha.fr_sha1_update ctx (magic1.take 39)
  let digest := sha.fr_sha1_final ctx
  let challenge :=
    mschap_challenge_hash sha challenge peer_challenge auth_challenge username username_len
  let ctx := sha.fr_sha1_init
  let ctx := sha.fr_sha1_update ctx (digest.take 20)
  let ctx := sha.fr_sha1_update ctx (challenge.take 8)
  let ctx := sha.fr_sha1_update ctx (magic2.take 41)
  let digest := sha.fr_sha1_final ctx
  let response := response.set 0 83
  let response := response.set 1 61
  hex_loop digest 20 0 response

/-! ## Reference renderings used in the statements -/

/-- The uppercase hexadecimal digit of a value below 16, as an ASCII code. -/
def hex_digit (n : Nat) : Nat := if n < 10 then 48 + n else 55 + n

/-- Two uppercase hexadecimal digits for each byte, high nibble first. -/
def hex_upper : List Nat → List Nat
  | [] => []
  | b :: bs => hex_digit (b / 16 % 16) :: hex_digit (b % 16) :: hex_upper bs

/-- The character the loop stores at index `j` of the response, for `2 ≤ j`. -/
def hex_char (digest : List Nat) (j : Nat) : Nat :=
  if (j - 2) % 2 = 0 then hex_digit (digest.getD ((j - 2) / 2) 0 / 16 % 16)
  else hex_digit (digest.getD ((j - 2) / 2) 0 % 16)

/-- The ASCII codes of the characters of a string. -/
def ascii (s : String) : List Nat := s.toList.map Char.toNat

/-! ## RFC 2759 section 9.2 test data -/

/-- UserName `"User"`. -/
def rfc_user_name : List Nat := [0x55, 0x73, 0x65, 0x72]

/-- Password `"clientPass"` as a C string. -/
def rfc_password : List Nat :=
  [0x63, 0x6C, 0x69, 0x65, 0x6E, 0x74, 0x50, 0x61, 0x73, 0x73, 0]

/-- AuthenticatorChallenge. -/
def rfc_auth_challenge : List Nat :=
  [0x5B, 0x5D, 0x7C, 0x7D, 0x7B, 0x3F, 0x2F, 0x3E, 0x3C, 0x2C, 0x60, 0x21, 0x32, 0x26, 0x26, 0x28]

/-- PeerChallenge. -/
def rfc_peer_challenge : List Nat :=
  [0x21, 0x40, 0x23, 0x24, 0x25, 0x5E, 0x26, 0x2A, 0x28, 0x29, 0x5F, 0x2B, 0x3A, 0x33, 0x7C, 0x7E]

/-- PasswordHash. -/
def rfc_password_hash : List Nat :=
  [0x44, 0xEB, 0xBA, 0x8D, 0x53, 0x12, 0xB8, 0xD6, 0x11, 0x47, 0x44, 0x11, 0xF5, 0x69, 0x89, 0xAE]

/-- PasswordHashHash. -/
def rfc_password_hash_hash : List Nat :=
  [0x41, 0xC0, 0x0C, 0x58, 0x4B, 0xD2, 0xD9, 0x1C, 0x40, 0x17, 0xA2, 0xA1, 0x2F, 0xA5, 0x9F, 0x3F]

/-- NT-Response. -/
def rfc_nt_response : List Nat :=
  [0x82, 0x30, 0x9E, 0xCD, 0x8D, 0x70, 0x8B, 0x5E, 0xA0, 0x8F, 0xAA, 0x39,
   0x81, 0xCD, 0x83, 0x54, 0x42, 0x33, 0x11, 0x4A, 0x3D, 0x85, 0xD6, 0xDF]

/-! ## Instrumented encoding loop and hexadecimal decoding -/

/-- The contents of `digest` in `mschap_auth_response` when the encoding of the
response starts: the statements of the routine up to the second `fr_sha1_final`. -/
def stage2_digest (sha : Sha1Api) (username : List Nat) (username_len : Nat)
    (nt_hash_hash ntresponse peer_challenge auth_challenge : List Nat) : List Nat :=
  let challenge := List.replicate 8 0
  let ctx := sha.fr_sha1_init
  let ctx := sha.fr_sha1_update ctx (nt_hash_hash.take 16)
  let ctx := sha.fr_sha1_update ctx (ntresponse.take 24)
  let ctx := sha.fr_sha1_update ctx (magic1.take 39)
  let digest := sha.fr_sha1_final ctx
  let challenge :=
    mschap_challenge_hash sha challenge peer_challenge auth_challenge username username_len
  let ctx := sha.fr_sha1_init
  let ctx := sha.fr_sha1_update ctx (digest.take 20)
  let ctx := sha.fr_sha1_update ctx (challenge.take 8)
  let ctx := sha.fr_sha1_update ctx (magic2.take 41)
  sha.fr_sha1_final ctx

/-- The loop of `hex_loop` with a record of the indices it uses: the state is the
response buffer, the indices looked up in `hex` so far and the indices of `response`
stored to so far. -/
def hex_loop_traced (digest : List Nat) :
    Nat → Nat → List Nat × List Nat × List Nat → List Nat × List Nat × List Nat
  | 0, _, s => s
  | n + 1, i, s =>
    let hi := (digest.getD i 0 >>> 4) &&& 0x0f
    let response := s.1.set (2 + i * 2) (hex.getD hi 0)
    let lo := digest.getD i 0 &&& 0x0f
    let response := response.set (3 + i * 2) (hex.getD lo 0)
    hex_loop_traced digest n (i + 1)
      (response, s.2.1 ++ [hi, lo], s.2.2 ++ [2 + i * 2, 3 + i * 2])

/-- `mschap_auth_response` with a record of the indices it uses: the result is the
buffer `response` after the call, the indices looked up in `hex` and the indices of
`response` stored to, both in the order of the accesses. -/
def mschap_auth_response_traced (sha : Sha1Api) (username : List Nat) (username_len : Nat)
    (nt_hash_hash ntresponse peer_challenge auth_challenge : List Nat)
    (response : List Nat) : List Nat × List Nat × List Nat :=
  let digest :=
    stage2_digest sha username username_len nt_hash_hash ntresponse peer_challenge
      auth_challenge
  let response := response.set 0 83
  let stores := [0]
  let response := response.set 1 61
  let stores := stores ++ [1]
  hex_loop_traced digest 20 0 (response, [], stores)

/-- The value of an uppercase hexadecimal digit given by its ASCII code. -/
def hex_value (c : Nat) : Nat := if c < 65 then c - 48 else c - 55

/-- Pairwise decoding of hexadecimal characters into bytes, high nibble first. -/
def hex_decode : List Nat → List Nat
  | hi :: lo :: rest => (hex_value hi * 16 + hex_value lo) :: hex_decode rest
  | _ => []

/-! ## Reply attributes -/

/-- The value types `mschap_add_reply` tells apart: `FR_TYPE_STRING` (text) and any
other type, which for the MS-CHAP reply attributes is binary octets. -/
inductive fr_type_t where
  | FR_TYPE_STRING
  | FR_TYPE_OCTETS
deriving DecidableEq

/-- A dictionary attribute: its identifier and its declared value type. -/
structure fr_dict_attr_t where
  attr : Nat
  type : fr_type_t
deriving DecidableEq

/-- An attribute-value pair: the dictionary attribute, `vp_type`, `vp_tainted` and
the value bytes; the value length is the length of `value`. -/
structure fr_pair_t where
  da : fr_dict_attr_t
  vp_type : fr_type_t
  vp_tainted : Bool
  value : List Nat
deriving DecidableEq

/-- The part of `request_t` that `mschap_add_reply` touches: the reply collection. -/
structure request_t where
  reply : List fr_pair_t
deriving DecidableEq

/-- How a run of `mschap_add_reply` ends.  The C routine returns `void`; this type
records whether the run reached its end or was stopped by a failing `MEM` check. -/
inductive mem_result where
  | done
  | resource_error
deriving DecidableEq

/-- Modelled from the spec: the macro `MEM(x)` is not part of `mschap.c`.  The spec
says that a failed allocation is fatal to the operation and is signalled as a
resource error, that it must abort just that call, and that it must not attach a
partial attribute or corrupt shared state.  So when `x` does not hold the run ends as
`resource_error` with the request as it was on entry `entry`; when `x` holds the run
goes on with `rest`. -/
def MEM (entry : request_t) (x : Bool) (rest : mem_result × request_t) :
    mem_result × request_t :=
  if x then rest else (mem_result.resource_error, entry)

/-- Modelled from the spec: `pair_update_reply(&vp, da)` belongs to the reply
container, which is not part of `mschap.c`.  The spec describes the container's
operation as an append: one new attribute of the given identifier, with an empty
value, is added at the end of the reply collection.  The result is the status
(negative when the allocation fails, with the collection unchanged), the request
and the position of `vp` in the collection. -/
def pair_update_reply (alloc_ok : Bool) (request : request_t) (da : fr_dict_attr_t) :
    Int × request_t × Nat :=
  if alloc_ok then
    (0, { reply := request.reply ++ [⟨da, da.type, false, []⟩] }, request.reply.length)
  else
    (-1, request, request.reply.length)

/-- Modelled from the spec: `fr_pair_value_bstr_alloc(vp, &p, size, tainted)` of the
pair library is not part of `mschap.c`.  It allocates a value buffer of `size`
bytes for a text attribute and makes it the value of `vp`; the buffer `p` is that
value.  The result is 0, or -1 when the allocation fails and `vp` is unchanged. -/
def fr_pair_value_bstr_alloc (alloc_ok : Bool) (vp : fr_pair_t) (size : Nat) (tainted : Bool) :
    Int × fr_pair_t :=
  if alloc_ok then (0, { vp with value := List.replicate size 0, vp_tainted := tainted })
  else (-1, vp)

/-- Modelled from the spec: `fr_pair_value_mem_alloc(vp, &p, size, tainted)` of the
pair library is not part of `mschap.c`.  It allocates a value buffer of `size`
bytes for a binary attribute and makes it the value of `vp`; the buffer `p` is that
value.  The result is 0, or -1 when the allocation fails and `vp` is unchanged. -/
def fr_pair_value_mem_alloc (alloc_ok : Bool) (vp : fr_pair_t) (size : Nat) (tainted : Bool) :
    Int × fr_pair_t :=
  if alloc_ok then (0, { vp with value := List.replicate size 0, vp_tainted := tainted })
  else (-1, vp)

/-- The stores `p[0] = ident; memcpy(p + 1, value, len)` of `mschap_add_reply`. -/
def store_ident_value (p : List Nat) (ident : Nat) (value : List Nat) (len : Nat) : List Nat :=
  let p := p.set 0 ident
  p.take 1 ++ memcpy (p.drop 1) value len

/-- `mschap_add_reply(request, ident, da, value, len)`: returns how the run ended and
the request after it.  `pair_ok` and `value_ok` say whether the two allocations
succeed; `entry` is the request on entry, which `MEM` hands back when its check
fails. -/
def mschap_add_reply (pair_ok value_ok : Bool) (request : request_t) (ident : Nat)
    (da : fr_dict_attr_t) (value : List Nat) (len : Nat) : mem_result × request_t :=
  let entry := request
  let r := pair_update_reply pair_ok request da
  MEM entry (decide (r.1 ≥ 0)) <|
    let request := r.2.1
    let vp := request.reply.getD r.2.2 ⟨da, da.type, false, []⟩
    if vp.vp_type = fr_type_t.FR_TYPE_STRING then
      let a := fr_pair_value_bstr_alloc value_ok vp (len + 1) vp.vp_tainted
      MEM entry (decide (a.1 = 0)) <|
        let p := store_ident_value a.2.value ident value len
        (mem_result.done, { reply := request.reply.set r.2.2 { a.2 with value := p } })
    else
      let a := fr_pair_value_mem_alloc value_ok vp (len + 1) vp.vp_tainted
      MEM entry (decide (a.1 = 0)) <|
        let p := store_ident_value a.2.value ident value len
        (mem_result.done, { reply := request.reply.set r.2.2 { a.2 with value := p } })

/-- A text-typed reply attribute used in the examples. -/
def da_text : fr_dict_attr_t := ⟨26, fr_type_t.FR_TYPE_STRING⟩

/-- A binary-typed reply attribute used in the examples. -/
def da_octets : fr_dict_attr_t := ⟨2, fr_type_t.FR_TYPE_OCTETS⟩

/-! ## Lemmas on the memory helpers -/

theorem memcpy_length (dst src : List Nat) (n : Nat) : (memcpy dst src n).length = dst.length := by
  induction dst generalizing src n with
  | nil => cases src <;> cases n <;> simp [memcpy]
  | cons d ds ih =>
    cases src with
    | nil => simp [memcpy]
    | cons s ss =>
      cases n with
      | zero => simp [memcpy]
      | succ n => simp [memcpy, ih]

theorem memcpy_eq (dst src : List Nat) (n : Nat) (hs : n ≤ src.length) (hd : n ≤ dst.length) :
    memcpy dst src n = src.take n ++ dst.drop n := by
  induction dst generalizing src n with
  | nil =>
    have : n = 0 := by simpa using hd
    subst this
    cases src <;> simp [memcpy]
  | cons d ds ih =>
    cases n with
    | zero => cases src <;> simp [memcpy]
    | succ n =>
      cases src with
      | nil => simp at hs
      | cons s ss =>
        simp only [List.length_cons, Nat.add_le_add_iff_right] at hs hd
        simp [memcpy, ih ss n hs hd]

/-! ## Lemmas on the hexadecimal loop -/

theorem hex_getD_lo (x : Nat) : hex.getD (x &&& 0x0f) 0 = hex_digit (x % 16) := by
  have h : x &&& 0x0f = x % 16 := Nat.and_pow_two_sub_one_eq_mod x 4
  rw [h]
  have hlt : x % 16 < 16 := Nat.mod_lt _ (by norm_num)
  generalize x % 16 = k at hlt
  interval_cases k <;> rfl

theorem hex_getD_hi (x : Nat) : hex.getD ((x >>> 4) &&& 0x0f) 0 = hex_digit (x / 16 % 16) := by
  rw [hex_getD_lo, Nat.shiftRight_eq_div_pow]

theorem hex_char_even (digest : List Nat) (i : Nat) :
    hex_char digest (2 + i * 2) = hex_digit (digest.getD i 0 / 16 % 16) := by
  have h1 : (2 + i * 2 - 2) % 2 = 0 := by omega
  have h2 : (2 + i * 2 - 2) / 2 = i := by omega
  simp only [hex_char, h1, h2, if_true]

theorem hex_char_odd (digest : List Nat) (i : Nat) :
    hex_char digest (3 + i * 2) = hex_digit (digest.getD i 0 % 16) := by
  have h1 : (3 + i * 2 - 2) % 2 = 1 := by omega
  have h2 : (3 + i * 2 - 2) / 2 = i := by omega
  simp only [hex_char, h1, h2]
  simp

theorem hex_loop_length (digest : List Nat) (n i : Nat) (r : List Nat) :
    (hex_loop digest n i r).length = r.length := by
  induction n generalizing i r with
  | zero => rfl
  | succ n ih => simp [hex_loop, ih]

theorem hex_loop_getElem? (digest : List Nat) (n i : Nat) (r : List Nat) (j : Nat) :
    (hex_loop digest n i r)[j]? =
      if 2 + i * 2 ≤ j ∧ j < 2 + (i + n) * 2 ∧ j < r.length then some (hex_char digest j)
      else r[j]? := by
  induction n generalizing i r with
  | zero =>
    simp only [hex_loop]
    rw [if_neg]
    omega
  | succ n ih =>
    simp only [hex_loop]
    rw [ih, hex_getD_hi, hex_getD_lo, ← hex_char_even, ← hex_char_odd]
    simp only [List.length_set, List.getElem?_set]
    split_ifs <;> first
      | rfl
      | (exfalso; omega)
      | (have h : 3 + i * 2 = j := by assumption
         rw [h])
      | (have h : 2 + i * 2 = j := by assumption
         rw [h])
      | (have hn : r[j]? = none := List.getElem?_eq_none (by omega)
         rw [hn])

theorem hex_upper_length (d : List Nat) : (hex_upper d).length = 2 * d.length := by
  induction d with
  | nil => rfl
  | cons b bs ih => simp [hex_upper, ih]; omega

theorem hex_upper_getElem? (d : List Nat) (k : Nat) (hk : k < 2 * d.length) :
    (hex_upper d)[k]? = some (hex_char d (k + 2)) := by
  induction d generalizing k with
  | nil => simp at hk
  | cons b bs ih =>
    match k with
    | 0 => simp [hex_upper, hex_char]
    | 1 => simp [hex_upper, hex_char]
    | k + 2 =>
      have hk2 : k < 2 * bs.length := by simp at hk; omega
      simp only [hex_upper, List.getElem?_cons_succ]
      rw [ih k hk2]
      have a1 : (k + 2 + 2 - 2) % 2 = (k + 2 - 2) % 2 := by omega
      have a2 : (k + 2 + 2 - 2) / 2 = (k + 2 - 2) / 2 + 1 := by omega
      simp only [hex_char, a1, a2, List.getD_cons_succ]

/-! ## Lemmas on the SHA-1 interface -/

theorem Sha1Api.Lawful.three {sha : Sha1Api} {SHA1 : List Nat → List Nat}
    (h : sha.Lawful SHA1) (a b c : List Nat) :
    sha.fr_sha1_final
        (sha.fr_sha1_update (sha.fr_sha1_update (sha.fr_sha1_update sha.fr_sha1_init a) b) c)
      = SHA1 (a ++ b ++ c) := by
  have := h.stream [a, b, c]
  simpa [List.flatten] using this

theorem foldl_append_flatten (chunks : List (List Nat)) (acc : List Nat) :
    chunks.foldl (fun ctx data => ctx ++ data) acc = acc ++ chunks.flatten := by
  induction chunks generalizing acc with
  | nil => simp
  | cons c cs ih => simp [List.foldl, ih, List.flatten]

theorem sha1_length (m : List Nat) : (sha1 m).length = 20 := by
  simp [sha1, be_bytes]

theorem sha1Api_lawful : sha1Api.Lawful sha1 where
  stream := by
    intro chunks
    show sha1 (chunks.foldl (fun ctx data => ctx ++ data) []) = sha1 chunks.flatten
    rw [foldl_append_flatten, List.nil_append]
  digest_length := sha1_length

theorem mschap_challenge_hash_length (sha : Sha1Api) (challenge peer auth user : List Nat)
    (len : Nat) :
    (mschap_challenge_hash sha challenge peer auth user len).length = challenge.length := by
  simp [mschap_challenge_hash, memcpy_length]

/-- The stage-2 digest computed by `mschap_auth_response` before the encoding. -/
theorem mschap_auth_response_eq_loop (sha : Sha1Api) (username : List Nat) (username_len : Nat)
    (nt_hash_hash ntresponse peer_challenge auth_challenge response : List Nat) :
    mschap_auth_response sha username username_len nt_hash_hash ntresponse peer_challenge
        auth_challenge response
      = hex_loop
          (sha.fr_sha1_final (sha.fr_sha1_update (sha.fr_sha1_update (sha.fr_sha1_update
            sha.fr_sha1_init
            ((sha.fr_sha1_final (sha.fr_sha1_update (sha.fr_sha1_update (sha.fr_sha1_update
              sha.fr_sha1_init (nt_hash_hash.take 16)) (ntresponse.take 24)) magic1)).take 20))
            ((mschap_challenge_hash sha (List.replicate 8 0) peer_challenge auth_challenge
              username username_len).take 8)) magic2))
          20 0 ((response.set 0 83).set 1 61) := rfl

/-- The buffer left by the encoding part of `mschap_auth_response`. -/
theorem hex_loop_response (digest response : List Nat) (hd : digest.length = 20)
    (hr : 42 ≤ response.length) :
    hex_loop digest 20 0 ((response.set 0 83).set 1 61)
      = 83 :: 61 :: hex_upper digest ++ response.drop 42 := by
  apply List.ext_getElem?
  intro j
  rw [hex_loop_getElem?]
  simp only [List.length_set]
  match j with
  | 0 =>
    rw [if_neg (by omega), List.getElem?_set, if_neg (by omega), List.getElem?_set,
      if_pos rfl, if_pos (by omega)]
    rfl
  | 1 =>
    rw [if_neg (by omega), List.getElem?_set, if_pos rfl, List.length_set,
      if_pos (by omega)]
    simp
  | j + 2 =>
    have hl : (hex_upper digest).length = 40 := by rw [hex_upper_length, hd]
    simp only [List.cons_append, List.getElem?_cons_succ]
    by_cases hj : j + 2 < 42
    · rw [if_pos (by omega), List.getElem?_append_left (by omega),
        hex_upper_getElem? digest j (by omega)]
    · rw [if_neg (by omega), List.getElem?_append_right (by omega), hl, List.getElem?_drop]
      simp only [List.getElem?_set]
      rw [if_neg (by omega), if_neg (by omega)]
      congr 1
      omega

/-- C1: for 16-byte `nt_hash_hash`, 24-byte `ntresponse` and a response buffer of at
least 42 bytes, `mschap_auth_response` leaves in the buffer `'S'`, `'='` and the
uppercase hexadecimal rendering of `D2 = SHA1(D1 || C || magic2)`, where
`D1 = SHA1(nt_hash_hash || ntresponse || magic1)` and `C` is the output of
`mschap_challenge_hash`; SHA-1 is any primitive whose init/update/final equals the
one-shot digest of the concatenated chunks. -/
theorem mschap_auth_response_spec (sha : Sha1Api) (SHA1 : List Nat → List Nat)
    (hsha : sha.Lawful SHA1) (username : List Nat) (username_len : Nat)
    (nt_hash_hash ntresponse peer_challenge auth_challenge response : List Nat)
    (h1 : nt_hash_hash.length = 16) (h2 : ntresponse.length = 24)
    (hr : 42 ≤ response.length) :
    mschap_auth_response sha username username_len nt_hash_hash ntresponse peer_challenge
        auth_challenge response
      = 83 :: 61 :: hex_upper
          (SHA1 (SHA1 (nt_hash_hash ++ ntresponse ++ magic1)
            ++ mschap_challenge_hash sha (List.replicate 8 0) peer_challenge auth_challenge
                username username_len
            ++ magic2))
        ++ response.drop 42 := by
  have hc : (mschap_challenge_hash sha (List.replicate 8 0) peer_challenge auth_challenge
      username username_len).length = 8 := by
    rw [mschap_challenge_hash_length]; rfl
  rw [mschap_auth_response_eq_loop, List.take_of_length_le (le_of_eq h1),
    List.take_of_length_le (le_of_eq h2), hsha.three, hsha.three,
    List.take_of_length_le (le_of_eq (hsha.digest_length _)),
    List.take_of_length_le (le_of_eq hc),
    hex_loop_response _ _ (hsha.digest_length _) hr]

/-- Witness of C1 on the RFC 2759 test data with the concrete SHA-1. -/
theorem mschap_auth_response_spec_witness :
    rfc_password_hash_hash.length = 16 ∧ rfc_nt_response.length = 24 ∧
    42 ≤ (List.replicate 42 0).length ∧
    mschap_auth_response sha1Api rfc_user_name 4 rfc_password_hash_hash rfc_nt_response
        rfc_peer_challenge rfc_auth_challenge (List.replicate 42 0)
      = 83 :: 61 :: hex_upper
          (sha1 (sha1 (rfc_password_hash_hash ++ rfc_nt_response ++ magic1)
            ++ mschap_challenge_hash sha1Api (List.replicate 8 0) rfc_peer_challenge
                rfc_auth_challenge rfc_user_name 4
            ++ magic2))
        ++ (List.replicate 42 0).drop 42 :=
  ⟨by decide, by decide, by decide,
   mschap_auth_response_spec sha1Api sha1 sha1Api_lawful rfc_user_name 4
     rfc_password_hash_hash rfc_nt_response rfc_peer_challenge rfc_auth_challenge
     (List.replicate 42 0) (by decide) (by decide) (by decide)⟩

theorem hex_digit_range (n : Nat) (h : n < 16) :
    (48 ≤ hex_digit n ∧ hex_digit n ≤ 57) ∨ (65 ≤ hex_digit n ∧ hex_digit n ≤ 70) := by
  unfold hex_digit
  split_ifs <;> omega

theorem hex_char_range (digest : List Nat) (j : Nat) :
    (48 ≤ hex_char digest j ∧ hex_char digest j ≤ 57) ∨
      (65 ≤ hex_char digest j ∧ hex_char digest j ≤ 70) := by
  unfold hex_char
  split_ifs
  · exact hex_digit_range _ (Nat.mod_lt _ (by norm_num))
  · exact hex_digit_range _ (Nat.mod_lt _ (by norm_num))

/-- C2: whatever the SHA-1 primitive returns and whatever the inputs are, a response
buffer of at least 42 bytes holds after `mschap_auth_response` a 42-byte string
whose bytes 0 and 1 are `'S'` (83) and `'='` (61) and whose bytes 2..41 are each one
of `'0'..'9'` (48..57) or `'A'..'F'` (65..70); the buffer keeps its length. -/
theorem mschap_auth_response_format (sha : Sha1Api) (username : List Nat) (username_len : Nat)
    (nt_hash_hash ntresponse peer_challenge auth_challenge response : List Nat)
    (hr : 42 ≤ response.length) :
    (mschap_auth_response sha username username_len nt_hash_hash ntresponse peer_challenge
        auth_challenge response).length = response.length ∧
    ((mschap_auth_response sha username username_len nt_hash_hash ntresponse peer_challenge
        auth_challenge response).take 42).length = 42 ∧
    (mschap_auth_response sha username username_len nt_hash_hash ntresponse peer_challenge
        auth_challenge response)[0]? = some 83 ∧
    (mschap_auth_response sha username username_len nt_hash_hash ntresponse peer_challenge
        auth_challenge response)[1]? = some 61 ∧
    ∀ j, 2 ≤ j → j < 42 → ∃ c,
      (mschap_auth_response sha username username_len nt_hash_hash ntresponse peer_challenge
        auth_challenge response)[j]? = some c ∧
      ((48 ≤ c ∧ c ≤ 57) ∨ (65 ≤ c ∧ c ≤ 70)) := by
  rw [mschap_auth_response_eq_loop]
  have hlen := hex_loop_length
    (sha.fr_sha1_final (sha.fr_sha1_update (sha.fr_sha1_update (sha.fr_sha1_update
      sha.fr_sha1_init
      ((sha.fr_sha1_final (sha.fr_sha1_update (sha.fr_sha1_update (sha.fr_sha1_update
        sha.fr_sha1_init (nt_hash_hash.take 16)) (ntresponse.take 24)) magic1)).take 20))
      ((mschap_challenge_hash sha (List.replicate 8 0) peer_challenge auth_challenge
        username username_len).take 8)) magic2))
    20 0 ((response.set 0 83).set 1 61)
  simp only [List.length_set] at hlen
  refine ⟨hlen, ?_, ?_, ?_, ?_⟩
  · rw [List.length_take, hlen]; omega
  · rw [hex_loop_getElem?, if_neg (by omega), List.getElem?_set, if_neg (by omega),
      List.getElem?_set, if_pos rfl, if_pos (by omega)]
  · rw [hex_loop_getElem?, if_neg (by omega), List.getElem?_set, if_pos rfl, List.length_set,
      if_pos (by omega)]
  · intro j h2 h42
    rw [hex_loop_getElem?, if_pos (by simp only [List.length_set]; omega)]
    exact ⟨_, rfl, hex_char_range _ j⟩

/-- Witness of C2 on the RFC 2759 test data with the concrete SHA-1. -/
theorem mschap_auth_response_format_witness :
    42 ≤ (List.replicate 50 7).length ∧
    (mschap_auth_response sha1Api rfc_user_name 4 rfc_password_hash_hash rfc_nt_response
        rfc_peer_challenge rfc_auth_challenge (List.replicate 50 7)).length = 50 ∧
    (mschap_auth_response sha1Api rfc_user_name 4 rfc_password_hash_hash rfc_nt_response
        rfc_peer_challenge rfc_auth_challenge (List.replicate 50 7))[0]? = some 83 :=
  have h := mschap_auth_response_format sha1Api rfc_user_name 4 rfc_password_hash_hash
    rfc_nt_response rfc_peer_challenge rfc_auth_challenge (List.replicate 50 7) (by decide)
  ⟨by decide, h.1, h.2.2.1⟩

set_option maxRecDepth 100000 in
/-- C3: with the concrete SHA-1, `mschap_auth_response` on the RFC 2759 section 9.2
test data produces exactly the 42-byte string
`"S=407A5589115FD0D6209F510FE9C04566932CDA56"`. -/
theorem mschap_auth_response_rfc2759 :
    mschap_auth_response sha1Api rfc_user_name 4 rfc_password_hash_hash rfc_nt_response
        rfc_peer_challenge rfc_auth_challenge (List.replicate 42 0)
      = ascii "S=407A5589115FD0D6209F510FE9C04566932CDA56" := by
  decide!

theorem take8_length {sha : Sha1Api} {SHA1 : List Nat → List Nat} (hsha : sha.Lawful SHA1)
    (m : List Nat) : ((SHA1 m).take 8).length = 8 := by
  rw [List.length_take, hsha.digest_length m]; rfl

theorem mschap_challenge_hash_eq (sha : Sha1Api) (SHA1 : List Nat → List Nat)
    (hsha : sha.Lawful SHA1) (challenge peer_challenge auth_challenge user_name : List Nat)
    (user_name_len : Nat)
    (hp : peer_challenge.length = 16) (ha : auth_challenge.length = 16)
    (hc : 8 ≤ challenge.length) :
    mschap_challenge_hash sha challenge peer_challenge auth_challenge user_name user_name_len
      = (SHA1 (peer_challenge ++ auth_challenge ++ user_name.take user_name_len)).take 8
          ++ challenge.drop 8 := by
  have hd := hsha.digest_length (peer_challenge ++ auth_challenge ++ user_name.take user_name_len)
  show memcpy challenge (sha.fr_sha1_final (sha.fr_sha1_update (sha.fr_sha1_update
    (sha.fr_sha1_update sha.fr_sha1_init (peer_challenge.take 16)) (auth_challenge.take 16))
    (user_name.take user_name_len))) 8 = _
  rw [List.take_of_length_le (le_of_eq hp), List.take_of_length_le (le_of_eq ha), hsha.three,
    memcpy_eq _ _ 8 (by omega) hc]

/-- C4: for 16-byte challenges and a user name of any length, `mschap_challenge_hash`
overwrites exactly the first 8 bytes of the `challenge` buffer, with the leading 8
bytes of `SHA1(peer_challenge || auth_challenge || user_name[0..user_name_len))`, in
order; the function is total and has no error result. -/
theorem mschap_challenge_hash_spec (sha : Sha1Api) (SHA1 : List Nat → List Nat)
    (hsha : sha.Lawful SHA1) (challenge peer_challenge auth_challenge user_name : List Nat)
    (user_name_len : Nat)
    (hp : peer_challenge.length = 16) (ha : auth_challenge.length = 16)
    (hc : 8 ≤ challenge.length) :
    mschap_challenge_hash sha challenge peer_challenge auth_challenge user_name user_name_len
      = (SHA1 (peer_challenge ++ auth_challenge ++ user_name.take user_name_len)).take 8
          ++ challenge.drop 8 ∧
    ((SHA1 (peer_challenge ++ auth_challenge ++ user_name.take user_name_len)).take 8).length
      = 8 := by
  exact ⟨mschap_challenge_hash_eq sha SHA1 hsha challenge peer_challenge auth_challenge
    user_name user_name_len hp ha hc, take8_length hsha _⟩

/-- Witness of C4 on the RFC 2759 test data with the concrete SHA-1. -/
theorem mschap_challenge_hash_spec_witness :
    rfc_peer_challenge.length = 16 ∧ rfc_auth_challenge.length = 16 ∧
    8 ≤ (List.replicate 8 0).length ∧
    mschap_challenge_hash sha1Api (List.replicate 8 0) rfc_peer_challenge rfc_auth_challenge
        rfc_user_name 4
      = (sha1 (rfc_peer_challenge ++ rfc_auth_challenge ++ rfc_user_name.take 4)).take 8
          ++ (List.replicate 8 0).drop 8 :=
  ⟨by decide, by decide, by decide,
   (mschap_challenge_hash_spec sha1Api sha1 sha1Api_lawful (List.replicate 8 0)
     rfc_peer_challenge rfc_auth_challenge rfc_user_name 4 (by decide) (by decide)
     (by decide)).1⟩

/-- The 8-byte challenge of the RFC 2759 test data, `D0 2E 43 86 BC E9 12 26`. -/
theorem mschap_challenge_hash_rfc2759 :
    mschap_challenge_hash sha1Api (List.replicate 8 0) rfc_peer_challenge rfc_auth_challenge
        rfc_user_name 4
      = [0xD0, 0x2E, 0x43, 0x86, 0xBC, 0xE9, 0x12, 0x26] := by
  decide!

theorem sha_colliding_lawful : sha_colliding.Lawful (fun _ => List.replicate 20 0) where
  stream := fun _ => rfl
  digest_length := fun _ => rfl

/-- Why the amended C5 needs its second hypothesis: the trust assumption on SHA-1 used
for the other claims does not make the swap visible.  With the interface
`sha_colliding`, which meets that assumption, the distinct RFC 2759 challenges give
the same output in both orders.  That the output changes rests on the digests. -/
theorem mschap_challenge_hash_swap_rests_on_digest :
    rfc_peer_challenge ≠ rfc_auth_challenge ∧
    mschap_challenge_hash sha_colliding (List.replicate 8 0) rfc_peer_challenge
        rfc_auth_challenge rfc_user_name 4
      = mschap_challenge_hash sha_colliding (List.replicate 8 0) rfc_auth_challenge
          rfc_peer_challenge rfc_user_name 4 := by
  decide

/-- The 8-byte challenge of the RFC 2759 test data with the two challenges swapped,
`CB AB 07 04 39 B6 04 11`. -/
theorem mschap_challenge_hash_swapped_rfc2759 :
    mschap_challenge_hash sha1Api (List.replicate 8 0) rfc_auth_challenge rfc_peer_challenge
        rfc_user_name 4
      = [0xCB, 0xAB, 0x07, 0x04, 0x39, 0xB6, 0x04, 0x11] := by
  decide!

theorem md4_length (m : List Nat) : (md4 m).length = 16 := by
  simp [md4, le_bytes]

theorem fr_md4_calc_eq (MD4 : List Nat → List Nat) (out inp : List Nat) (inlen : Nat)
    (ho : out.length = 16) (hm : (MD4 (inp.take inlen)).length = 16) :
    fr_md4_calc MD4 out inp inlen = MD4 (inp.take inlen) := by
  unfold fr_md4_calc
  rw [memcpy_eq _ _ 16 (by omega) (by omega), List.take_of_length_le (by omega),
    List.drop_of_length_le (by omega), List.append_nil]

/-- C6: whenever the encoder reports a length `len ≥ 0` for the password,
`mschap_nt_password_hash` returns 0 and the 16-byte output buffer is the MD4 digest
of exactly the first `len` bytes of the encoding buffer. -/
theorem mschap_nt_password_hash_success (encode : Ucs2Encoder) (MD4 : List Nat → List Nat)
    (out password : List Nat)
    (hlen : 0 ≤ (encode (List.replicate 512 0) 512 password (strlen password)).1)
    (ho : out.length = 16) (hm : ∀ m, (MD4 m).length = 16) :
    mschap_nt_password_hash encode MD4 out password
      = (0, MD4 ((encode (List.replicate 512 0) 512 password (strlen password)).2.take
              (encode (List.replicate 512 0) 512 password (strlen password)).1.toNat)) := by
  unfold mschap_nt_password_hash
  simp only [if_neg (not_lt.mpr hlen)]
  rw [fr_md4_calc_eq _ _ _ _ ho (hm _)]

set_option maxRecDepth 100000 in
/-- Witness of C6: the RFC 2759 password `"clientPass"` with the modelled encoder and
the concrete MD4 yields status 0 and the RFC PasswordHash. -/
theorem mschap_nt_password_hash_success_witness :
    0 ≤ (fr_utf8_to_ucs2 (List.replicate 512 0) 512 rfc_password (strlen rfc_password)).1 ∧
    (List.replicate 16 170).length = 16 ∧
    mschap_nt_password_hash fr_utf8_to_ucs2 md4 (List.replicate 16 170) rfc_password
      = (0, md4 ((fr_utf8_to_ucs2 (List.replicate 512 0) 512 rfc_password
                (strlen rfc_password)).2.take
              (fr_utf8_to_ucs2 (List.replicate 512 0) 512 rfc_password
                (strlen rfc_password)).1.toNat)) ∧
    mschap_nt_password_hash fr_utf8_to_ucs2 md4 (List.replicate 16 170) rfc_password
      = (0, rfc_password_hash) :=
  ⟨by decide!, by decide,
   mschap_nt_password_hash_success fr_utf8_to_ucs2 md4 (List.replicate 16 170) rfc_password
     (by decide!) (by decide) md4_length,
   by decide!⟩

set_option maxRecDepth 100000 in
/-- Counterexample to C7: a password of 257 letters `a` does not fit the 512-byte
encoding buffer, the encoder fails, and the output buffer, 16 bytes `0xAA` before the
call, has byte 0 changed to 0 after it. -/
theorem mschap_nt_password_hash_failure_counterexample :
    (fr_utf8_to_ucs2 (List.replicate 512 0) 512 (List.replicate 257 97 ++ [0])
        (strlen (List.replicate 257 97 ++ [0]))).1 < 0 ∧
    (mschap_nt_password_hash fr_utf8_to_ucs2 md4 (List.replicate 16 170)
        (List.replicate 257 97 ++ [0])).2 = 0 :: List.replicate 15 170 ∧
    (mschap_nt_password_hash fr_utf8_to_ucs2 md4 (List.replicate 16 170)
        (List.replicate 257 97 ++ [0])).2 ≠ List.replicate 16 170 := by
  decide!

/-- C7 (amended): whenever the encoder reports a negative length,
`mschap_nt_password_hash` returns -1 and stores no digest; the only store to the
output buffer is a 0 in byte 0, every other byte is what it was before the call. -/
theorem mschap_nt_password_hash_failure (encode : Ucs2Encoder) (MD4 : List Nat → List Nat)
    (out password : List Nat)
    (hfail : (encode (List.replicate 512 0) 512 password (strlen password)).1 < 0) :
    (mschap_nt_password_hash encode MD4 out password).1 = -1 ∧
    (mschap_nt_password_hash encode MD4 out password).2.length = out.length ∧
    ∀ i, 1 ≤ i → (mschap_nt_password_hash encode MD4 out password).2[i]? = out[i]? := by
  have e : mschap_nt_password_hash encode MD4 out password = (-1, out.set 0 0) := by
    unfold mschap_nt_password_hash
    simp only [if_pos hfail]
  rw [e]
  refine ⟨rfl, List.length_set _ _ _, ?_⟩
  intro i hi
  rw [List.getElem?_set, if_neg (by omega)]

set_option maxRecDepth 100000 in
/-- Witness of C7 (amended) on the password of 257 letters `a`. -/
theorem mschap_nt_password_hash_failure_witness :
    (fr_utf8_to_ucs2 (List.replicate 512 0) 512 (List.replicate 257 97 ++ [0])
        (strlen (List.replicate 257 97 ++ [0]))).1 < 0 ∧
    (mschap_nt_password_hash fr_utf8_to_ucs2 md4 (List.replicate 16 170)
        (List.replicate 257 97 ++ [0])).1 = -1 :=
  ⟨by decide!,
   (mschap_nt_password_hash_failure fr_utf8_to_ucs2 md4 (List.replicate 16 170)
     (List.replicate 257 97 ++ [0]) (by decide!)).1⟩

/-- C8: `mschap_nt_password_hash` returns -1 exactly when the encoder reports a
negative length and 0 exactly when it does not; these are its only return values, so
the MD4 step adds no error path. -/
theorem mschap_nt_password_hash_status (encode : Ucs2Encoder) (MD4 : List Nat → List Nat)
    (out password : List Nat) :
    ((mschap_nt_password_hash encode MD4 out password).1 = -1
      ↔ (encode (List.replicate 512 0) 512 password (strlen password)).1 < 0) ∧
    ((mschap_nt_password_hash encode MD4 out password).1 = 0
      ↔ ¬ (encode (List.replicate 512 0) 512 password (strlen password)).1 < 0) ∧
    ((mschap_nt_password_hash encode MD4 out password).1 = -1 ∨
      (mschap_nt_password_hash encode MD4 out password).1 = 0) := by
  have key : ∀ q : Int × List Nat,
      ((if q.1 < 0 then ((-1 : Int), out.set 0 0)
          else (0, fr_md4_calc MD4 out q.2 q.1.toNat)).1 = -1 ↔ q.1 < 0) ∧
      ((if q.1 < 0 then ((-1 : Int), out.set 0 0)
          else (0, fr_md4_calc MD4 out q.2 q.1.toNat)).1 = 0 ↔ ¬ q.1 < 0) ∧
      ((if q.1 < 0 then ((-1 : Int), out.set 0 0)
          else (0, fr_md4_calc MD4 out q.2 q.1.toNat)).1 = -1 ∨
        (if q.1 < 0 then ((-1 : Int), out.set 0 0)
          else (0, fr_md4_calc MD4 out q.2 q.1.toNat)).1 = 0) := by
    intro q
    by_cases h : q.1 < 0
    · simp [h]
    · simp [h]
  exact key (encode (List.replicate 512 0) 512 password (strlen password))

/-! ## The modelled encoder and the 512-byte bound -/

theorem flatMap_le16_length (us : List Nat) : (us.flatMap le16).length = 2 * us.length := by
  induction us with
  | nil => rfl
  | cons u us ih => simp [List.flatMap_cons, le16, ih]; omega

theorem put_units_overflow (outlen : Nat) (us : List Nat) (off : Nat) (out : List Nat)
    (h1 : off ≤ outlen) (h2 : outlen < off + 2 * us.length) :
    put_units outlen us off out = (-1, (put_units outlen us off out).2) ∧
      (put_units outlen us off out).1 = -1 := by
  induction us generalizing off out with
  | nil => simp at h2; omega
  | cons u us ih =>
    unfold put_units
    by_cases h : outlen < off + 2
    · simp [if_pos h]
    · rw [if_neg h]
      have := ih (off + 2) ((out.set off (u % 256)).set (off + 1) (u / 256 % 256)) (by omega)
        (by simp at h2; omega)
      exact ⟨by rw [← this.2], this.2⟩

theorem fr_utf8_to_ucs2_overflow (out : List Nat) (outlen : Nat) (inp : List Nat) (inlen : Nat)
    (e : List Nat) (he : utf16le (inp.take inlen) = some e) (hlong : outlen < e.length) :
    (fr_utf8_to_ucs2 out outlen inp inlen).1 = -1 := by
  unfold utf16le at he
  unfold fr_utf8_to_ucs2
  cases hu : utf8_units (inp.take inlen) with
  | none => rfl
  | some us =>
    rw [hu] at he
    simp only [Option.map_some', Option.some.injEq] at he
    subst he
    rw [flatMap_le16_length] at hlong
    exact (put_units_overflow outlen us 0 out (by omega) (by omega)).2

/-- C9: with the modelled encoder, every password whose UTF-16LE encoding is longer
than the 512-byte encoding buffer makes `mschap_nt_password_hash` return -1; no
digest of a truncated encoding is stored, the output buffer only gets a 0 in
byte 0. -/
theorem mschap_nt_password_hash_too_long (MD4 : List Nat → List Nat)
    (out password e : List Nat)
    (he : utf16le (password.take (strlen password)) = some e) (hlong : 512 < e.length) :
    mschap_nt_password_hash fr_utf8_to_ucs2 MD4 out password = (-1, out.set 0 0) := by
  have h := fr_utf8_to_ucs2_overflow (List.replicate 512 0) 512 password (strlen password) e
    he hlong
  unfold mschap_nt_password_hash
  simp only [h]
  rfl

set_option maxRecDepth 100000 in
/-- Witness of C9: 257 letters `a` encode to 514 bytes. -/
theorem mschap_nt_password_hash_too_long_witness :
    utf16le ((List.replicate 257 97 ++ [0]).take (strlen (List.replicate 257 97 ++ [0])))
      = some (List.replicate 257 [97, 0]).flatten ∧
    512 < (List.replicate 257 [97, 0]).flatten.length ∧
    mschap_nt_password_hash fr_utf8_to_ucs2 md4 (List.replicate 16 170)
        (List.replicate 257 97 ++ [0])
      = (-1, (List.replicate 16 170).set 0 0) :=
  ⟨by decide!, by decide!,
   mschap_nt_password_hash_too_long md4 (List.replicate 16 170) (List.replicate 257 97 ++ [0])
     (List.replicate 257 [97, 0]).flatten (by decide!) (by decide!)⟩

theorem strlen_eq_length (s : List Nat) (h : ∀ c ∈ s, 0 < c) : strlen s = s.length := by
  induction s with
  | nil => rfl
  | cons c cs ih =>
    have hc : c ≠ 0 := Nat.pos_iff_ne_zero.mp (h c (List.mem_cons_self c cs))
    have hcs : ∀ x ∈ cs, 0 < x := fun x hx => h x (List.mem_cons_of_mem c hx)
    simp [strlen, hc, ih hcs]

theorem utf8_units_ascii (s : List Nat) (h : ∀ c ∈ s, c < 128) : utf8_units s = some s := by
  unfold utf8_units
  induction s with
  | nil => rfl
  | cons c cs ih =>
    have hc : c < 128 := h c (List.mem_cons_self c cs)
    have hcs : ∀ x ∈ cs, x < 128 := fun x hx => h x (List.mem_cons_of_mem c hx)
    rw [utf8_units_from, if_pos hc, ih hcs]
    rfl

/-- The example of C9: with the modelled encoder, a password of more than 256 ASCII
characters (bytes 1..127) makes `mschap_nt_password_hash` return -1. -/
theorem mschap_nt_password_hash_ascii_too_long (MD4 : List Nat → List Nat)
    (out password : List Nat) (hascii : ∀ c ∈ password, 0 < c ∧ c < 128)
    (hlong : 256 < password.length) :
    mschap_nt_password_hash fr_utf8_to_ucs2 MD4 out password = (-1, out.set 0 0) := by
  have hs : strlen password = password.length :=
    strlen_eq_length password fun c hc => (hascii c hc).1
  have hu : utf8_units password = some password :=
    utf8_units_ascii password fun c hc => (hascii c hc).2
  have h := fr_utf8_to_ucs2_overflow (List.replicate 512 0) 512 password (strlen password)
    (password.flatMap le16)
    (by rw [hs, List.take_of_length_le (le_refl _)]; unfold utf16le; rw [hu]; rfl)
    (by rw [flatMap_le16_length]; omega)
  unfold mschap_nt_password_hash
  simp only [h]
  rfl

/-- C10: `magic1` is the 39 ASCII bytes of `"Magic server to client signing constant"`
and `magic2` the 41 ASCII bytes of `"Pad to make it do more than one iteration"`,
with no terminator and no other byte. -/
theorem magic_constants :
    magic1 = ascii "Magic server to client signing constant" ∧ magic1.length = 39 ∧
    magic2 = ascii "Pad to make it do more than one iteration" ∧ magic2.length = 41 := by
  decide

/-! ## NT password hash: determinism and the failure branch -/

/-- C14: whenever the encoder reports a length `len ≥ 0` for the password, two runs
of `mschap_nt_password_hash` that differ only in the initial contents of the 16-byte
output buffer return the same status and leave the same output buffer. -/
theorem mschap_nt_password_hash_deterministic (encode : Ucs2Encoder)
    (MD4 : List Nat → List Nat) (out1 out2 password : List Nat)
    (hlen : 0 ≤ (encode (List.replicate 512 0) 512 password (strlen password)).1)
    (h1 : out1.length = 16) (h2 : out2.length = 16) (hm : ∀ m, (MD4 m).length = 16) :
    mschap_nt_password_hash encode MD4 out1 password
      = mschap_nt_password_hash encode MD4 out2 password := by
  unfold mschap_nt_password_hash
  simp only [if_neg (not_lt.mpr hlen)]
  rw [fr_md4_calc_eq _ _ _ _ h1 (hm _), fr_md4_calc_eq _ _ _ _ h2 (hm _)]

set_option maxRecDepth 100000 in
/-- Witness of C14: the RFC 2759 password hashed into a buffer of `0xAA` bytes and
into a buffer of zero bytes. -/
theorem mschap_nt_password_hash_deterministic_witness :
    0 ≤ (fr_utf8_to_ucs2 (List.replicate 512 0) 512 rfc_password (strlen rfc_password)).1 ∧
    (List.replicate 16 170).length = 16 ∧ (List.replicate 16 0).length = 16 ∧
    mschap_nt_password_hash fr_utf8_to_ucs2 md4 (List.replicate 16 170) rfc_password
      = mschap_nt_password_hash fr_utf8_to_ucs2 md4 (List.replicate 16 0) rfc_password :=
  ⟨by decide!, by decide, by decide,
   mschap_nt_password_hash_deterministic fr_utf8_to_ucs2 md4 (List.replicate 16 170)
     (List.replicate 16 0) rfc_password (by decide!) (by decide) (by decide) md4_length⟩

/-- C15: whenever the encoder reports a negative length, `mschap_nt_password_hash`
returns -1, byte 0 of the 16-byte output buffer is 0 and bytes 1..15 are what they
were before the call. -/
theorem mschap_nt_password_hash_failure_bytes (encode : Ucs2Encoder)
    (MD4 : List Nat → List Nat) (out password : List Nat)
    (hfail : (encode (List.replicate 512 0) 512 password (strlen password)).1 < 0)
    (ho : out.length = 16) :
    (mschap_nt_password_hash encode MD4 out password).1 = -1 ∧
    (mschap_nt_password_hash encode MD4 out password).2[0]? = some 0 ∧
    (∀ i, 1 ≤ i → i ≤ 15 →
      (mschap_nt_password_hash encode MD4 out password).2[i]? = out[i]?) ∧
    (mschap_nt_password_hash encode MD4 out password).2 = 0 :: out.drop 1 := by
  have e : mschap_nt_password_hash encode MD4 out password = (-1, out.set 0 0) := by
    unfold mschap_nt_password_hash
    simp only [if_pos hfail]
  rw [e]
  refine ⟨rfl, ?_, ?_, ?_⟩
  · rw [List.getElem?_set, if_pos rfl, if_pos (by omega)]
  · intro i hi _
    rw [List.getElem?_set, if_neg (by omega)]
  · cases out with
    | nil => simp at ho
    | cons a as => rfl

set_option maxRecDepth 100000 in
/-- Witness of C15: the byte `0xFF` is not valid UTF-8, the encoder fails, and an
output buffer holding `1, 2, ..., 16` ends as `0, 2, ..., 16`. -/
theorem mschap_nt_password_hash_failure_bytes_witness :
    (fr_utf8_to_ucs2 (List.replicate 512 0) 512 [255, 0] (strlen [255, 0])).1 < 0 ∧
    (List.range 17).tail.length = 16 ∧
    (mschap_nt_password_hash fr_utf8_to_ucs2 md4 (List.range 17).tail [255, 0]).1 = -1 ∧
    (mschap_nt_password_hash fr_utf8_to_ucs2 md4 (List.range 17).tail [255, 0]).2
      = 0 :: (List.range 17).tail.drop 1 :=
  have h := mschap_nt_password_hash_failure_bytes fr_utf8_to_ucs2 md4 (List.range 17).tail
    [255, 0] (by decide!) (by decide)
  ⟨by decide!, by decide, h.1, h.2.2.2⟩

/-! ## The encoding loop: losslessness, index bounds and frame -/

theorem mschap_auth_response_eq_stage2 (sha : Sha1Api) (username : List Nat)
    (username_len : Nat)
    (nt_hash_hash ntresponse peer_challenge auth_challenge response : List Nat) :
    mschap_auth_response sha username username_len nt_hash_hash ntresponse peer_challenge
        auth_challenge response
      = hex_loop
          (stage2_digest sha username username_len nt_hash_hash ntresponse peer_challenge
            auth_challenge)
          20 0 ((response.set 0 83).set 1 61) := rfl

theorem hex_value_digit (n : Nat) (h : n < 16) : hex_value (hex_digit n) = n := by
  unfold hex_value hex_digit
  split_ifs <;> omega

theorem hex_decode_upper (d : List Nat) (hb : ∀ b ∈ d, b < 256) :
    hex_decode (hex_upper d) = d := by
  induction d with
  | nil => rfl
  | cons b bs ih =>
    have hb0 : b < 256 := hb b (List.mem_cons_self b bs)
    have hbs : ∀ x ∈ bs, x < 256 := fun x hx => hb x (List.mem_cons_of_mem b hx)
    simp only [hex_upper, hex_decode]
    rw [hex_value_digit _ (Nat.mod_lt _ (by norm_num)),
      hex_value_digit _ (Nat.mod_lt _ (by norm_num)), ih hbs]
    congr 1
    omega

theorem hex_loop_decode (d response : List Nat) (hd : d.length = 20)
    (hb : ∀ b ∈ d, b < 256) (hr : 42 ≤ response.length) :
    hex_decode (((hex_loop d 20 0 ((response.set 0 83).set 1 61)).drop 2).take 40) = d := by
  have hl : (hex_upper d).length = 40 := by rw [hex_upper_length, hd]
  rw [hex_loop_response d response hd hr]
  have e : (83 :: 61 :: hex_upper d ++ response.drop 42).drop 2
      = hex_upper d ++ response.drop 42 := rfl
  rw [e, List.take_append_of_le_length (by omega), List.take_of_length_le (by omega),
    hex_decode_upper d hb]

/-- C16: the hexadecimal encoding of `mschap_auth_response` is lossless.  When the
stage-2 digest `d` has 20 bytes, decoding the 40 characters `response[2..41]`
pairwise as uppercase hexadecimal, high nibble first, gives `d` again; hence two
runs whose response strings agree on their first 42 bytes had equal digests. -/
theorem mschap_auth_response_hex_lossless (sha : Sha1Api) (username : List Nat)
    (username_len : Nat)
    (nt_hash_hash ntresponse peer_challenge auth_challenge response d : List Nat)
    (hs : stage2_digest sha username username_len nt_hash_hash ntresponse peer_challenge
      auth_challenge = d)
    (hd : d.length = 20) (hb : ∀ b ∈ d, b < 256) (hr : 42 ≤ response.length) :
    hex_decode (((mschap_auth_response sha username username_len nt_hash_hash ntresponse
        peer_challenge auth_challenge response).drop 2).take 40) = d ∧
    ∀ d2 response2 : List Nat, d2.length = 20 → (∀ b ∈ d2, b < 256) →
      42 ≤ response2.length →
      (hex_loop d 20 0 ((response.set 0 83).set 1 61)).take 42
        = (hex_loop d2 20 0 ((response2.set 0 83).set 1 61)).take 42 →
      d = d2 := by
  constructor
  · rw [mschap_auth_response_eq_stage2, hs]
    exact hex_loop_decode d response hd hb hr
  · intro d2 response2 hd2 hb2 hr2 heq
    have e1 := hex_loop_decode d response hd hb hr
    have e2 := hex_loop_decode d2 response2 hd2 hb2 hr2
    have t1 : ((hex_loop d 20 0 ((response.set 0 83).set 1 61)).drop 2).take 40
        = (((hex_loop d 20 0 ((response.set 0 83).set 1 61)).take 42).drop 2) := by
      rw [List.drop_take]
    have t2 : ((hex_loop d2 20 0 ((response2.set 0 83).set 1 61)).drop 2).take 40
        = (((hex_loop d2 20 0 ((response2.set 0 83).set 1 61)).take 42).drop 2) := by
      rw [List.drop_take]
    rw [t1, heq, ← t2, e2] at e1
    exact e1.symm

/-- The stage-2 digest of the RFC 2759 test data. -/
theorem stage2_digest_rfc2759 :
    stage2_digest sha1Api rfc_user_name 4 rfc_password_hash_hash rfc_nt_response
        rfc_peer_challenge rfc_auth_challenge
      = [0x40, 0x7A, 0x55, 0x89, 0x11, 0x5F, 0xD0, 0xD6, 0x20, 0x9F,
         0x51, 0x0F, 0xE9, 0xC0, 0x45, 0x66, 0x93, 0x2C, 0xDA, 0x56] := by
  decide!

/-- Witness of C16 on the RFC 2759 test data with the concrete SHA-1. -/
theorem mschap_auth_response_hex_lossless_witness :
    (∀ b ∈ [0x40, 0x7A, 0x55, 0x89, 0x11, 0x5F, 0xD0, 0xD6, 0x20, 0x9F,
            0x51, 0x0F, 0xE9, 0xC0, 0x45, 0x66, 0x93, 0x2C, 0xDA, 0x56], b < 256) ∧
    42 ≤ (List.replicate 42 0).length ∧
    hex_decode (((mschap_auth_response sha1Api rfc_user_name 4 rfc_password_hash_hash
        rfc_nt_response rfc_peer_challenge rfc_auth_challenge (List.replicate 42 0)).drop 2).take
        40)
      = [0x40, 0x7A, 0x55, 0x89, 0x11, 0x5F, 0xD0, 0xD6, 0x20, 0x9F,
         0x51, 0x0F, 0xE9, 0xC0, 0x45, 0x66, 0x93, 0x2C, 0xDA, 0x56] :=
  ⟨by decide, by decide,
   (mschap_auth_response_hex_lossless sha1Api rfc_user_name 4 rfc_password_hash_hash
     rfc_nt_response rfc_peer_challenge rfc_auth_challenge (List.replicate 42 0) _
     stage2_digest_rfc2759 (by decide) (by decide) (by decide)).1⟩

theorem hex_loop_traced_fst (digest : List Nat) (n i : Nat)
    (s : List Nat × List Nat × List Nat) :
    (hex_loop_traced digest n i s).1 = hex_loop digest n i s.1 := by
  induction n generalizing i s with
  | zero => rfl
  | succ n ih =>
    simp only [hex_loop_traced, hex_loop]
    rw [ih]

theorem and_15_lt (x : Nat) : x &&& 0x0f < 16 := by
  have h : x &&& 0x0f = x % 16 := Nat.and_pow_two_sub_one_eq_mod x 4
  rw [h]
  exact Nat.mod_lt _ (by norm_num)

theorem hex_loop_traced_lookups (digest : List Nat) (n i : Nat)
    (s : List Nat × List Nat × List Nat) (h : ∀ k ∈ s.2.1, k < 16) :
    ∀ k ∈ (hex_loop_traced digest n i s).2.1, k < 16 := by
  induction n generalizing i s with
  | zero => exact h
  | succ n ih =>
    simp only [hex_loop_traced]
    apply ih
    intro k hk
    simp only [List.mem_append, List.mem_cons, List.mem_singleton, List.not_mem_nil,
      or_false] at hk
    rcases hk with hk | hk | hk
    · exact h k hk
    · rw [hk]; exact and_15_lt _
    · rw [hk]; exact and_15_lt _

theorem hex_loop_traced_stores (digest : List Nat) (n i : Nat)
    (s : List Nat × List Nat × List Nat) :
    (hex_loop_traced digest n i s).2.2
      = s.2.2 ++ (List.range n).flatMap fun k => [2 + (i + k) * 2, 3 + (i + k) * 2] := by
  induction n generalizing i s with
  | zero => simp [hex_loop_traced]
  | succ n ih =>
    simp only [hex_loop_traced]
    rw [ih, List.range_succ_eq_map, List.flatMap_cons, List.flatMap_map, List.append_assoc]
    congr 2
    apply List.flatMap_congr
    intro k _
    have : i + 1 + k = i + (k + 1) := by omega
    rw [this]

theorem hex_loop_traced_lookups_eq (digest : List Nat) (n i : Nat)
    (s : List Nat × List Nat × List Nat) :
    (hex_loop_traced digest n i s).2.1
      = s.2.1 ++ (List.range n).flatMap fun k =>
          [(digest.getD (i + k) 0 >>> 4) &&& 0x0f, digest.getD (i + k) 0 &&& 0x0f] := by
  induction n generalizing i s with
  | zero => simp [hex_loop_traced]
  | succ n ih =>
    simp only [hex_loop_traced]
    rw [ih, List.range_succ_eq_map, List.flatMap_cons, List.flatMap_map, List.append_assoc]
    congr 2
    apply List.flatMap_congr
    intro k _
    have : i + 1 + k = i + (k + 1) := by omega
    rw [this]

theorem mschap_auth_response_traced_fst (sha : Sha1Api) (username : List Nat)
    (username_len : Nat)
    (nt_hash_hash ntresponse peer_challenge auth_challenge response : List Nat) :
    (mschap_auth_response_traced sha username username_len nt_hash_hash ntresponse
        peer_challenge auth_challenge response).1
      = mschap_auth_response sha username username_len nt_hash_hash ntresponse peer_challenge
          auth_challenge response := by
  rw [mschap_auth_response_eq_stage2]
  exact hex_loop_traced_fst _ _ _ _

theorem mschap_auth_response_traced_stores (sha : Sha1Api) (username : List Nat)
    (username_len : Nat)
    (nt_hash_hash ntresponse peer_challenge auth_challenge response : List Nat) :
    (mschap_auth_response_traced sha username username_len nt_hash_hash ntresponse
        peer_challenge auth_challenge response).2.2 = List.range 42 := by
  unfold mschap_auth_response_traced
  simp only []
  rw [hex_loop_traced_stores]
  show ([0] ++ [1] ++ (List.range 20).flatMap fun k => [2 + (0 + k) * 2, 3 + (0 + k) * 2])
    = List.range 42
  decide

theorem mschap_auth_response_traced_lookups (sha : Sha1Api) (username : List Nat)
    (username_len : Nat)
    (nt_hash_hash ntresponse peer_challenge auth_challenge response : List Nat) :
    (mschap_auth_response_traced sha username username_len nt_hash_hash ntresponse
        peer_challenge auth_challenge response).2.1
      = (List.range 20).flatMap fun i =>
          [((stage2_digest sha username username_len nt_hash_hash ntresponse peer_challenge
              auth_challenge).getD i 0 >>> 4) &&& 0x0f,
           (stage2_digest sha username username_len nt_hash_hash ntresponse peer_challenge
              auth_challenge).getD i 0 &&& 0x0f] := by
  unfold mschap_auth_response_traced
  simp only []
  rw [hex_loop_traced_lookups_eq, List.nil_append]
  apply List.flatMap_congr
  intro k _
  rw [Nat.zero_add]

/-- C17: `mschap_auth_response_traced` is `mschap_auth_response` with a record of its
accesses: it leaves the same response buffer.  For every input, the indices looked up
in the 16-character table `hex` are, for `i = 0..19` in order, `(digest[i] >> 4) & 0x0f`
and `digest[i] & 0x0f`, all below 16; the indices of `response` stored to are
0, 1, ..., 41 in this order, so each is below 42 and is stored to exactly once; with a
response buffer of at least 42 bytes no lookup and no store is out of range. -/
theorem mschap_auth_response_index_bounds (sha : Sha1Api) (username : List Nat)
    (username_len : Nat)
    (nt_hash_hash ntresponse peer_challenge auth_challenge response : List Nat) :
    (mschap_auth_response_traced sha username username_len nt_hash_hash ntresponse
        peer_challenge auth_challenge response).1
      = mschap_auth_response sha username username_len nt_hash_hash ntresponse peer_challenge
          auth_challenge response ∧
    (mschap_auth_response_traced sha username username_len nt_hash_hash ntresponse
        peer_challenge auth_challenge response).2.1
      = (List.range 20).flatMap (fun i =>
          [((stage2_digest sha username username_len nt_hash_hash ntresponse peer_challenge
              auth_challenge).getD i 0 >>> 4) &&& 0x0f,
           (stage2_digest sha username username_len nt_hash_hash ntresponse peer_challenge
              auth_challenge).getD i 0 &&& 0x0f]) ∧
    (∀ k ∈ (mschap_auth_response_traced sha username username_len nt_hash_hash ntresponse
        peer_challenge auth_challenge response).2.1, k < 16 ∧ k < hex.length) ∧
    (mschap_auth_response_traced sha username username_len nt_hash_hash ntresponse
        peer_challenge auth_challenge response).2.2 = List.range 42 ∧
    (∀ k ∈ (mschap_auth_response_traced sha username username_len nt_hash_hash ntresponse
        peer_challenge auth_challenge response).2.2, k < 42) ∧
    (∀ j, j < 42 → (mschap_auth_response_traced sha username username_len nt_hash_hash
        ntresponse peer_challenge auth_challenge response).2.2.count j = 1) ∧
    (42 ≤ response.length →
      ∀ k ∈ (mschap_auth_response_traced sha username username_len nt_hash_hash ntresponse
        peer_challenge auth_challenge response).2.2, k < response.length) := by
  have hs := mschap_auth_response_traced_stores sha username username_len nt_hash_hash
    ntresponse peer_challenge auth_challenge response
  have hl := mschap_auth_response_traced_lookups sha username username_len nt_hash_hash
    ntresponse peer_challenge auth_challenge response
  refine ⟨mschap_auth_response_traced_fst _ _ _ _ _ _ _ _, hl, ?_, hs, ?_, ?_, ?_⟩
  · intro k hk
    rw [hl] at hk
    simp only [List.mem_flatMap, List.mem_cons, List.mem_singleton, List.not_mem_nil,
      or_false] at hk
    obtain ⟨i, _, hk | hk⟩ := hk
    · rw [hk]
      exact ⟨and_15_lt _, Nat.lt_trans (and_15_lt _) (by decide)⟩
    · rw [hk]
      exact ⟨and_15_lt _, Nat.lt_trans (and_15_lt _) (by decide)⟩
  · rw [hs]
    intro k hk
    exact List.mem_range.mp hk
  · rw [hs]
    intro j hj
    exact List.count_eq_one_of_mem (List.nodup_range 42) (List.mem_range.mpr hj)
  · rw [hs]
    intro h k hk
    exact Nat.lt_of_lt_of_le (List.mem_range.mp hk) h

/-- C18: `mschap_auth_response` changes only bytes 0..41 of the response buffer: the
buffer keeps its length and every byte at index 42 or above is what it was before the
call. -/
theorem mschap_auth_response_frame (sha : Sha1Api) (username : List Nat) (username_len : Nat)
    (nt_hash_hash ntresponse peer_challenge auth_challenge response : List Nat)
    (j : Nat) (hj : 42 ≤ j) :
    (mschap_auth_response sha username username_len nt_hash_hash ntresponse peer_challenge
        auth_challenge response)[j]? = response[j]? ∧
    (mschap_auth_response sha username username_len nt_hash_hash ntresponse peer_challenge
        auth_challenge response).length = response.length := by
  rw [mschap_auth_response_eq_stage2]
  constructor
  · rw [hex_loop_getElem?, if_neg (by omega), List.getElem?_set, if_neg (by omega),
      List.getElem?_set, if_neg (by omega)]
  · rw [hex_loop_length, List.length_set, List.length_set]

set_option maxRecDepth 100000 in
/-- Witness of C18: a 44-byte buffer of bytes `0xEE`; bytes 42 and 43 stay `0xEE`. -/
theorem mschap_auth_response_frame_witness :
    42 ≤ 42 ∧
    (mschap_auth_response sha1Api rfc_user_name 4 rfc_password_hash_hash rfc_nt_response
        rfc_peer_challenge rfc_auth_challenge (List.replicate 44 238))[42]?
      = (List.replicate 44 238)[42]? ∧
    (mschap_auth_response sha1Api rfc_user_name 4 rfc_password_hash_hash rfc_nt_response
        rfc_peer_challenge rfc_auth_challenge (List.replicate 44 238)).drop 42 = [238, 238] :=
  ⟨by decide,
   (mschap_auth_response_frame sha1Api rfc_user_name 4 rfc_password_hash_hash rfc_nt_response
     rfc_peer_challenge rfc_auth_challenge (List.replicate 44 238) 42 (by decide)).1,
   by decide!⟩

/-- C19: for fixed `nt_hash_hash`, `ntresponse` and response buffer, two triples of
user name, peer challenge and authenticator challenge on which
`mschap_challenge_hash` gives the same challenge make `mschap_auth_response` leave
the same response. -/
theorem mschap_auth_response_through_challenge (sha : Sha1Api)
    (username1 : List Nat) (username_len1 : Nat) (peer_challenge1 auth_challenge1 : List Nat)
    (username2 : List Nat) (username_len2 : Nat) (peer_challenge2 auth_challenge2 : List Nat)
    (nt_hash_hash ntresponse response : List Nat)
    (h : mschap_challenge_hash sha (List.replicate 8 0) peer_challenge1 auth_challenge1
          username1 username_len1
        = mschap_challenge_hash sha (List.replicate 8 0) peer_challenge2 auth_challenge2
          username2 username_len2) :
    mschap_auth_response sha username1 username_len1 nt_hash_hash ntresponse peer_challenge1
        auth_challenge1 response
      = mschap_auth_response sha username2 username_len2 nt_hash_hash ntresponse
          peer_challenge2 auth_challenge2 response := by
  rw [mschap_auth_response_eq_loop, mschap_auth_response_eq_loop, h]

/-- Witness of C19: the user-name buffers `"User"` and `"UserX"`, both read with
length 4, give the same challenge. -/
theorem mschap_auth_response_through_challenge_witness :
    mschap_challenge_hash sha1Api (List.replicate 8 0) rfc_peer_challenge rfc_auth_challenge
        rfc_user_name 4
      = mschap_challenge_hash sha1Api (List.replicate 8 0) rfc_peer_challenge
          rfc_auth_challenge (rfc_user_name ++ [88]) 4 ∧
    mschap_auth_response sha1Api rfc_user_name 4 rfc_password_hash_hash rfc_nt_response
        rfc_peer_challenge rfc_auth_challenge (List.replicate 42 0)
      = mschap_auth_response sha1Api (rfc_user_name ++ [88]) 4 rfc_password_hash_hash
          rfc_nt_response rfc_peer_challenge rfc_auth_challenge (List.replicate 42 0) :=
  ⟨rfl,
   mschap_auth_response_through_challenge sha1Api rfc_user_name 4 rfc_peer_challenge
     rfc_auth_challenge (rfc_user_name ++ [88]) 4 rfc_peer_challenge rfc_auth_challenge
     rfc_password_hash_hash rfc_nt_response (List.replicate 42 0) rfl⟩

/-! ## Reply attributes -/

theorem store_ident_value_eq (ident : Nat) (value : List Nat) (len : Nat)
    (hl : len ≤ value.length) :
    store_ident_value (List.replicate (len + 1) 0) ident value len
      = ident :: value.take len := by
  unfold store_ident_value
  rw [List.replicate_succ]
  simp only [List.set_cons_zero, List.take_succ_cons, List.take_zero, List.drop_succ_cons,
    List.drop_zero]
  rw [memcpy_eq _ _ len hl (by simp), List.drop_of_length_le (by simp)]
  simp

theorem getD_append_length (l : List fr_pair_t) (a d : fr_pair_t) :
    (l ++ [a]).getD l.length d = a := by
  rw [List.getD_eq_getElem?_getD, List.getElem?_append_right (le_refl _)]
  simp

theorem set_append_length (l : List fr_pair_t) (a b : fr_pair_t) :
    (l ++ [a]).set l.length b = l ++ [b] := by
  induction l with
  | nil => rfl
  | cons x xs ih => simp [ih]

theorem mschap_add_reply_done (request : request_t) (ident : Nat) (da : fr_dict_attr_t)
    (value : List Nat) (len : Nat) :
    mschap_add_reply true true request ident da value len
      = (mem_result.done,
          { reply := request.reply ++
              [⟨da, da.type, false,
                store_ident_value (List.replicate (len + 1) 0) ident value len⟩] }) := by
  unfold mschap_add_reply pair_update_reply fr_pair_value_bstr_alloc fr_pair_value_mem_alloc
  simp only [if_true, getD_append_length, set_append_length]
  by_cases ht : da.type = fr_type_t.FR_TYPE_STRING <;> simp [ht, MEM]

theorem mschap_add_reply_pair_failure (value_ok : Bool) (request : request_t) (ident : Nat)
    (da : fr_dict_attr_t) (value : List Nat) (len : Nat) :
    mschap_add_reply false value_ok request ident da value len
      = (mem_result.resource_error, request) := by
  unfold mschap_add_reply pair_update_reply
  simp [MEM]

theorem mschap_add_reply_value_failure (request : request_t) (ident : Nat)
    (da : fr_dict_attr_t) (value : List Nat) (len : Nat) :
    mschap_add_reply true false request ident da value len
      = (mem_result.resource_error, request) := by
  unfold mschap_add_reply pair_update_reply fr_pair_value_bstr_alloc fr_pair_value_mem_alloc
  simp only [if_true, getD_append_length, set_append_length]
  by_cases ht : da.type = fr_type_t.FR_TYPE_STRING <;> simp [ht, MEM]

theorem mschap_add_reply_done_iff (pair_ok value_ok : Bool) (request : request_t)
    (ident : Nat) (da : fr_dict_attr_t) (value : List Nat) (len : Nat) :
    (mschap_add_reply pair_ok value_ok request ident da value len).1 = mem_result.done
      ↔ pair_ok = true ∧ value_ok = true := by
  cases pair_ok <;> cases value_ok
  · rw [mschap_add_reply_pair_failure]; simp
  · rw [mschap_add_reply_pair_failure]; simp
  · rw [mschap_add_reply_value_failure]; simp
  · rw [mschap_add_reply_done]; simp

/-- C11: for every ident byte, value buffer and `len` not beyond the buffer, and for a
text-typed as well as a binary-typed attribute, a run of `mschap_add_reply` that ends
normally leaves the attribute with a value of length `len + 1`, whose byte 0 is
`ident` and whose bytes 1..len are `value[0..len)`; the value is the same byte
sequence `ident :: value[0..len)` whatever the declared type. -/
theorem mschap_add_reply_value (pair_ok value_ok : Bool) (request : request_t) (ident : Nat)
    (da : fr_dict_attr_t) (value : List Nat) (len : Nat)
    (hdone : (mschap_add_reply pair_ok value_ok request ident da value len).1
      = mem_result.done)
    (hl : len ≤ value.length) :
    ∃ vp, (mschap_add_reply pair_ok value_ok request ident da value len).2.reply.getLast?
        = some vp ∧
      vp.da = da ∧ vp.vp_type = da.type ∧
      vp.value.length = len + 1 ∧
      vp.value[0]? = some ident ∧
      (∀ k, k < len → vp.value[k + 1]? = value[k]?) ∧
      vp.value = ident :: value.take len := by
  obtain ⟨h1, h2⟩ := (mschap_add_reply_done_iff _ _ _ _ _ _ _).mp hdone
  subst h1 h2
  rw [mschap_add_reply_done, store_ident_value_eq ident value len hl]
  refine ⟨⟨da, da.type, false, ident :: value.take len⟩, ?_, rfl, rfl, ?_, ?_, ?_, rfl⟩
  · simp
  · simp [List.length_take, Nat.min_eq_left hl]
  · simp
  · intro k hk
    simp [List.getElem?_take, hk]

/-- Witness of C11: ident 7 and the three bytes `"S=A"` attached to a text-typed
attribute of an empty reply. -/
theorem mschap_add_reply_value_witness :
    (mschap_add_reply true true ⟨[]⟩ 7 da_text [83, 61, 65] 3).1 = mem_result.done ∧
    3 ≤ [83, 61, 65].length ∧
    ∃ vp, (mschap_add_reply true true ⟨[]⟩ 7 da_text [83, 61, 65] 3).2.reply.getLast?
        = some vp ∧
      vp.da = da_text ∧ vp.vp_type = da_text.type ∧
      vp.value.length = 3 + 1 ∧
      vp.value[0]? = some 7 ∧
      (∀ k, k < 3 → vp.value[k + 1]? = [83, 61, 65][k]?) ∧
      vp.value = 7 :: [83, 61, 65].take 3 :=
  ⟨by decide, by decide,
   mschap_add_reply_value true true ⟨[]⟩ 7 da_text [83, 61, 65] 3 (by decide) (by decide)⟩

/-- The two type branches on the same ident and payload: both values are
`7, 'S', '=', 'A'`. -/
theorem mschap_add_reply_branches :
    (mschap_add_reply true true ⟨[]⟩ 7 da_text [83, 61, 65] 3).2.reply.map (·.value)
      = [[7, 83, 61, 65]] ∧
    (mschap_add_reply true true ⟨[]⟩ 7 da_octets [83, 61, 65] 3).2.reply.map (·.value)
      = [[7, 83, 61, 65]] := by
  decide

/-- C12: a run of `mschap_add_reply` that ends normally has one effect on the reply
collection: one new attribute of the given identifier is appended, so the size grows
by exactly one, and every attribute already present, of whatever identifier, is at
its place unchanged. -/
theorem mschap_add_reply_appends (pair_ok value_ok : Bool) (request : request_t)
    (ident : Nat) (da : fr_dict_attr_t) (value : List Nat) (len : Nat)
    (hdone : (mschap_add_reply pair_ok value_ok request ident da value len).1
      = mem_result.done) :
    (∃ vp, vp.da = da ∧
      (mschap_add_reply pair_ok value_ok request ident da value len).2.reply
        = request.reply ++ [vp]) ∧
    (mschap_add_reply pair_ok value_ok request ident da value len).2.reply.length
      = request.reply.length + 1 ∧
    ∀ i, i < request.reply.length →
      (mschap_add_reply pair_ok value_ok request ident da value len).2.reply[i]?
        = request.reply[i]? := by
  obtain ⟨h1, h2⟩ := (mschap_add_reply_done_iff _ _ _ _ _ _ _).mp hdone
  subst h1 h2
  rw [mschap_add_reply_done]
  refine ⟨⟨_, rfl, rfl⟩, by simp, ?_⟩
  intro i hi
  exact List.getElem?_append_left hi

/-- Witness of C12: the reply already holds an attribute of the same identifier; it
stays, and a second one is appended. -/
theorem mschap_add_reply_appends_witness :
    (mschap_add_reply true true ⟨[⟨da_octets, fr_type_t.FR_TYPE_OCTETS, false, [1, 2]⟩]⟩ 7
        da_octets [83, 61, 65] 3).1 = mem_result.done ∧
    (mschap_add_reply true true ⟨[⟨da_octets, fr_type_t.FR_TYPE_OCTETS, false, [1, 2]⟩]⟩ 7
        da_octets [83, 61, 65] 3).2.reply.length
      = [(⟨da_octets, fr_type_t.FR_TYPE_OCTETS, false, [1, 2]⟩ : fr_pair_t)].length + 1 :=
  ⟨by decide,
   (mschap_add_reply_appends true true
     ⟨[⟨da_octets, fr_type_t.FR_TYPE_OCTETS, false, [1, 2]⟩]⟩ 7 da_octets [83, 61, 65] 3
     (by decide)).2.1⟩

/-- The failing value allocation on a reply that holds one attribute, for a text-typed
and for a binary-typed target: the run ends as a resource error and the reply is as
before. -/
theorem mschap_add_reply_alloc_failure_example :
    mschap_add_reply true false ⟨[⟨da_octets, fr_type_t.FR_TYPE_OCTETS, false, [1, 2]⟩]⟩ 7
        da_text [83, 61, 65] 3
      = (mem_result.resource_error,
          ⟨[⟨da_octets, fr_type_t.FR_TYPE_OCTETS, false, [1, 2]⟩]⟩) ∧
    mschap_add_reply true false ⟨[⟨da_octets, fr_type_t.FR_TYPE_OCTETS, false, [1, 2]⟩]⟩ 7
        da_octets [83, 61, 65] 3
      = (mem_result.resource_error,
          ⟨[⟨da_octets, fr_type_t.FR_TYPE_OCTETS, false, [1, 2]⟩]⟩) := by
  decide

end Mschap
